import Mathlib

/-!
Verification of the IntelliHome edge-orchestration core
(`IntelliHome_RaspeberryApp/IntelliHome`): a shallow embedding of
`db_manager.py`, `App.py`, `security_module.py` and
`device_control_module.py`, together with theorems settling the spec's
claims about synchronization, scheduling, mode handling, aggregation,
cooldowns and command routing.

Machine integers / floats of the source are modelled as `Nat` timestamps
and counters (wall-clock seconds); the outcome of external I/O (remote
database writes, SMTP transport, MQTT publishes, camera capture) is
injected as explicit boolean parameters, one per `try` scope of the
source, so that every failure path of the code is representable.
-/

namespace IntelliHome

/-- A row of a local SQLite table. Only the `id` and the `synced` flag
participate in the synchronization semantics of `db_manager.py`
(tables `env_data` and `security_data`); the payload columns are carried
by neither gate nor branch. -/
structure LocalRow where
  id : Nat
  synced : Bool
  deriving DecidableEq, Repr

/-- The local SQLite database of `DB_Manager`: the `env_data` table and
the `security_data` table, in insertion order. -/
structure LocalDB where
  envRows : List LocalRow
  secRows : List LocalRow
  deriving DecidableEq, Repr

/-- `SELECT ... WHERE synced = 0` (db_manager.py lines 95 and 110):
all rows whose `synced` flag is still 0, in insertion order. -/
def fetchUnsynced (rows : List LocalRow) : List LocalRow :=
  rows.filter (fun r => !r.synced)

/-- `UPDATE ... SET synced = 1 WHERE id IN (...)` (db_manager.py lines
106 and 121). -/
def markSynced (ids : List Nat) (rows : List LocalRow) : List LocalRow :=
  rows.map (fun r => if r.id ∈ ids then { r with synced := true } else r)

/-- Observable outcome of one `DB_Manager.synchronize_to_cloud` call:
the local database after the call, the ids actually committed to the
remote `env_data` / `security_data` tables, and the returned
`synced_count`. -/
structure SyncResult where
  db : LocalDB
  cloudEnvWritten : List Nat
  cloudSecWritten : List Nat
  syncedCount : Nat
  deriving DecidableEq, Repr

/-- `DB_Manager.synchronize_to_cloud` (db_manager.py lines 86-136).

`envWriteOk` / `secWriteOk` inject whether the remote `execute_batch`
INSERT for the respective kind succeeds when it is attempted (it is
attempted only when that kind has unsynced rows). The whole body is one
`try` block: an exception at either remote write skips the rest of the
block, and because neither `cloud_conn.commit()` nor
`local_conn.commit()` has run yet, both the remote inserts and the local
`UPDATE ... SET synced = 1` statements staged so far are rolled back
when the connections are discarded. The accumulated `synced_count` is
still returned (line 136 is outside the `try`). -/
def synchronize_to_cloud (envWriteOk secWriteOk : Bool) (db : LocalDB) : SyncResult :=
  if fetchUnsynced db.envRows ≠ [] ∧ envWriteOk = false then
    -- exception at the env `execute_batch`: nothing committed
    { db := db, cloudEnvWritten := [], cloudSecWritten := [], syncedCount := 0 }
  else if fetchUnsynced db.secRows ≠ [] ∧ secWriteOk = false then
    -- exception at the security `execute_batch`: staged env work rolled
    -- back, but `synced_count` already includes the env rows
    { db := db, cloudEnvWritten := [], cloudSecWritten := [],
      syncedCount := (fetchUnsynced db.envRows).length }
  else
    -- both `commit()` calls reached: staged marks become durable
    { db :=
        { envRows :=
            if fetchUnsynced db.envRows ≠ [] then
              markSynced ((fetchUnsynced db.envRows).map LocalRow.id) db.envRows
            else db.envRows,
          secRows :=
            if fetchUnsynced db.secRows ≠ [] then
              markSynced ((fetchUnsynced db.secRows).map LocalRow.id) db.secRows
            else db.secRows },
      cloudEnvWritten := (fetchUnsynced db.envRows).map LocalRow.id,
      cloudSecWritten := (fetchUnsynced db.secRows).map LocalRow.id,
      syncedCount := (fetchUnsynced db.envRows).length + (fetchUnsynced db.secRows).length }

/-- One unsynced telemetry row and one unsynced security row: the
smallest database exercising both kinds in a sync tick. -/
def dbBothUnsynced : LocalDB :=
  { envRows := [⟨1, false⟩], secRows := [⟨2, false⟩] }

theorem fetchUnsynced_sublist (rows : List LocalRow) :
    ∀ r ∈ fetchUnsynced rows, r.synced = false := by
  intro r hr
  have := List.of_mem_filter hr
  simpa using this

theorem markSynced_all (rows : List LocalRow) :
    ∀ r ∈ markSynced ((fetchUnsynced rows).map LocalRow.id) rows, r.synced = true := by
  intro r hr
  simp only [markSynced] at hr
  rcases List.mem_map.mp hr with ⟨s, hs, hmark⟩
  by_cases hid : s.id ∈ (fetchUnsynced rows).map LocalRow.id
  · have heq : ({ s with synced := true } : LocalRow) = r := by
      simpa [hid] using hmark
    rw [← heq]
  · have hsr : s = r := by simpa [hid] using hmark
    subst hsr
    by_cases hsync : s.synced = true
    · exact hsync
    · exact absurd
        (List.mem_map.mpr
          ⟨s, List.mem_filter.mpr ⟨hs, by simp [hsync]⟩, rfl⟩) hid

theorem all_synced_of_fetch_nil (rows : List LocalRow)
    (h : fetchUnsynced rows = []) : ∀ r ∈ rows, r.synced = true := by
  intro r hr
  by_contra hsync
  have hmem : r ∈ fetchUnsynced rows :=
    List.mem_filter.mpr ⟨hr, by simp [Bool.not_eq_true] at hsync; simp [hsync]⟩
  rw [h] at hmem
  exact absurd hmem (List.not_mem_nil r)

theorem fetch_nil_of_all_synced (rows : List LocalRow)
    (h : ∀ r ∈ rows, r.synced = true) : fetchUnsynced rows = [] := by
  apply List.filter_eq_nil_iff.mpr
  intro r hr
  simp [h r hr]

theorem markSynced_map_id (ids : List Nat) (rows : List LocalRow) :
    (markSynced ids rows).map LocalRow.id = rows.map LocalRow.id := by
  simp only [markSynced, List.map_map]
  apply List.map_congr_left
  intro r _
  by_cases h : r.id ∈ ids <;> simp [h]

/-- Any failure during the tick leaves the local database unchanged and
commits nothing to the remote store: nothing is marked synced. -/
theorem sync_rollback (db : LocalDB) (envOk secOk : Bool)
    (h : (fetchUnsynced db.envRows ≠ [] ∧ envOk = false) ∨
         (fetchUnsynced db.secRows ≠ [] ∧ secOk = false)) :
    (synchronize_to_cloud envOk secOk db).db = db ∧
    (synchronize_to_cloud envOk secOk db).cloudEnvWritten = [] ∧
    (synchronize_to_cloud envOk secOk db).cloudSecWritten = [] := by
  by_cases h1 : fetchUnsynced db.envRows ≠ [] ∧ envOk = false
  · simp [synchronize_to_cloud, h1]
  · have h2 : fetchUnsynced db.secRows ≠ [] ∧ secOk = false := h.resolve_left h1
    simp [synchronize_to_cloud, h1, h2]

/-- When both remote batch writes succeed, every row of both local tables
is synced afterward, and the tables keep their ids. -/
theorem sync_success (db : LocalDB) :
    (∀ r ∈ (synchronize_to_cloud true true db).db.envRows, r.synced = true) ∧
    (∀ r ∈ (synchronize_to_cloud true true db).db.secRows, r.synced = true) ∧
    (synchronize_to_cloud true true db).db.envRows.map LocalRow.id
      = db.envRows.map LocalRow.id ∧
    (synchronize_to_cloud true true db).db.secRows.map LocalRow.id
      = db.secRows.map LocalRow.id ∧
    (synchronize_to_cloud true true db).syncedCount
      = (fetchUnsynced db.envRows).length + (fetchUnsynced db.secRows).length := by
  refine ⟨?_, ?_, ?_, ?_, ?_⟩
  · intro r hr
    simp [synchronize_to_cloud] at hr
    by_cases hne : fetchUnsynced db.envRows = []
    · rw [if_pos hne] at hr
      exact all_synced_of_fetch_nil _ hne r hr
    · rw [if_neg hne] at hr
      exact markSynced_all _ r hr
  · intro r hr
    simp [synchronize_to_cloud] at hr
    by_cases hne : fetchUnsynced db.secRows = []
    · rw [if_pos hne] at hr
      exact all_synced_of_fetch_nil _ hne r hr
    · rw [if_neg hne] at hr
      exact markSynced_all _ r hr
  · simp [synchronize_to_cloud]
    by_cases hne : fetchUnsynced db.envRows = [] <;>
      simp [hne, markSynced_map_id]
  · simp [synchronize_to_cloud]
    by_cases hne : fetchUnsynced db.secRows = [] <;>
      simp [hne, markSynced_map_id]
  · simp [synchronize_to_cloud]

/-- C1 (counterexample): with one unsynced row of each kind, a
remote-write failure for the telemetry (env) kind leaves the security
kind's rows neither written to the remote store nor marked synced in the
same tick — the kinds do not sync independently, refuting the claim. -/
theorem c1_counterexample :
    fetchUnsynced dbBothUnsynced.secRows = [⟨2, false⟩] ∧
    (synchronize_to_cloud false true dbBothUnsynced).cloudSecWritten = [] ∧
    fetchUnsynced (synchronize_to_cloud false true dbBothUnsynced).db.secRows
      = [⟨2, false⟩] := by
  decide

/-- C1 (amended): within a single cloud-sync tick the two record kinds
share one exception scope and one commit point, so a remote-write
failure for either kind prevents BOTH kinds' unsynced rows from being
written to the remote store and marked synced in that tick; both kinds
are written and marked only when every attempted remote write
succeeds. -/
theorem c1_sync_kinds_share_failure_scope (db : LocalDB) (envOk secOk : Bool) :
    ((fetchUnsynced db.envRows ≠ [] ∧ envOk = false) ∨
     (fetchUnsynced db.secRows ≠ [] ∧ secOk = false) →
       (synchronize_to_cloud envOk secOk db).db = db ∧
       (synchronize_to_cloud envOk secOk db).cloudEnvWritten = [] ∧
       (synchronize_to_cloud envOk secOk db).cloudSecWritten = []) ∧
    (envOk = true → secOk = true →
       (∀ r ∈ (synchronize_to_cloud envOk secOk db).db.envRows, r.synced = true) ∧
       (∀ r ∈ (synchronize_to_cloud envOk secOk db).db.secRows, r.synced = true)) := by
  constructor
  · exact sync_rollback db envOk secOk
  · intro hEnv hSec
    subst hEnv
    subst hSec
    exact ⟨(sync_success db).1, (sync_success db).2.1⟩

/-- C1 (witness): the amended theorem applied at a concrete database,
on a failing tick and on a successful tick. -/
theorem c1_witness :
    (synchronize_to_cloud false true dbBothUnsynced).db = dbBothUnsynced ∧
    (∀ r ∈ (synchronize_to_cloud true true dbBothUnsynced).db.envRows,
      r.synced = true) :=
  ⟨((c1_sync_kinds_share_failure_scope dbBothUnsynced false true).1
      (Or.inl ⟨by decide, rfl⟩)).1,
   ((c1_sync_kinds_share_failure_scope dbBothUnsynced true true).2 rfl rfl).1⟩

/-- C2 (counterexample): with one unsynced row of each kind, the env
remote batch write is attempted and succeeds (`envWriteOk = true`), yet
because the security write then fails, the env rows are NOT marked
synced after the tick — refuting the per-kind success half of the
claim. -/
theorem c2_counterexample :
    fetchUnsynced dbBothUnsynced.envRows = [⟨1, false⟩] ∧
    (synchronize_to_cloud true false dbBothUnsynced).db.envRows
      = [⟨1, false⟩] := by
  decide

/-- C2 (amended): if any remote batch write during the sync tick fails,
zero rows of either kind are marked synced (no partial marking) and all
previously unsynced rows remain eligible for retry on the next tick; if
no remote write fails, exactly all of the fetched unsynced rows of each
kind are marked synced (the tables keep their ids and no unsynced row
remains), and the reported count is the number of fetched rows. -/
theorem c2_no_partial_marking (db : LocalDB) (envOk secOk : Bool) :
    ((fetchUnsynced db.envRows ≠ [] ∧ envOk = false) ∨
     (fetchUnsynced db.secRows ≠ [] ∧ secOk = false) →
       fetchUnsynced (synchronize_to_cloud envOk secOk db).db.envRows
         = fetchUnsynced db.envRows ∧
       fetchUnsynced (synchronize_to_cloud envOk secOk db).db.secRows
         = fetchUnsynced db.secRows) ∧
    (envOk = true → secOk = true →
       (synchronize_to_cloud envOk secOk db).db.envRows.map LocalRow.id
         = db.envRows.map LocalRow.id ∧
       (synchronize_to_cloud envOk secOk db).db.secRows.map LocalRow.id
         = db.secRows.map LocalRow.id ∧
       fetchUnsynced (synchronize_to_cloud envOk secOk db).db.envRows = [] ∧
       fetchUnsynced (synchronize_to_cloud envOk secOk db).db.secRows = [] ∧
       (synchronize_to_cloud envOk secOk db).syncedCount
         = (fetchUnsynced db.envRows).length
             + (fetchUnsynced db.secRows).length) := by
  constructor
  · intro h
    rw [(sync_rollback db envOk secOk h).1]
    exact ⟨rfl, rfl⟩
  · intro hEnv hSec
    subst hEnv
    subst hSec
    obtain ⟨h1, h2, h3, h4, h5⟩ := sync_success db
    exact ⟨h3, h4, fetch_nil_of_all_synced _ h1, fetch_nil_of_all_synced _ h2, h5⟩

/-- C2 (witness): the amended theorem applied at a concrete database,
on a failing tick and on a successful tick. -/
theorem c2_witness :
    fetchUnsynced (synchronize_to_cloud true false dbBothUnsynced).db.envRows
      = fetchUnsynced dbBothUnsynced.envRows ∧
    fetchUnsynced (synchronize_to_cloud true true dbBothUnsynced).db.envRows
      = [] :=
  ⟨((c2_no_partial_marking dbBothUnsynced true false).1
      (Or.inr ⟨by decide, rfl⟩)).1,
   ((c2_no_partial_marking dbBothUnsynced true true).2 rfl rfl).2.2.1⟩

/-! ### Python string primitives

The payload handling of `App.py` and `device_control_module.py` uses
`str.strip()`, `str.title()`, `str.lower()` and `str.upper()`. MQTT
payloads are decoded UTF-8 text; the model implements the ASCII
semantics of these methods character by character. -/

/-- The ASCII whitespace characters removed by Python's `str.strip()`. -/
def pyIsSpace (c : Char) : Bool :=
  c == ' ' || c == '\t' || c == '\n' || c == '\r' || c == '\x0b' || c == '\x0c'

/-- `str.strip()`: drop whitespace from both ends. -/
def pyStrip (s : String) : String :=
  ⟨((s.data.dropWhile pyIsSpace).reverse.dropWhile pyIsSpace).reverse⟩

/-- The character transformation of Python's `str.title()`: an
alphabetic character is uppercased when the previous character was not
alphabetic and lowercased otherwise; other characters pass through. -/
def titleChars : Bool → List Char → List Char
  | _, [] => []
  | prevAlpha, c :: cs =>
    (if c.isAlpha then (if prevAlpha then c.toLower else c.toUpper) else c)
      :: titleChars c.isAlpha cs

/-- `str.title()`. -/
def pyTitle (s : String) : String :=
  ⟨titleChars false s.data⟩

/-- `str.lower()`. -/
def pyLower (s : String) : String :=
  ⟨s.data.map Char.toLower⟩

/-- `str.upper()`. -/
def pyUpper (s : String) : String :=
  ⟨s.data.map Char.toUpper⟩

/-- The normalization applied by `DomiSafeApp.set_system_mode`
(App.py line 92): `str(new_mode_raw).strip().title()`. -/
def normalizeMode (payload : String) : String :=
  pyTitle (pyStrip payload)

/-- `DomiSafeApp.set_system_mode` (App.py lines 91-97): returns the
stored mode after the call and whether the invalid-mode warning was
logged. -/
def set_system_mode (currentMode payload : String) : String × Bool :=
  if normalizeMode payload = "Home" ∨ normalizeMode payload = "Away" then
    (normalizeMode payload, false)
  else
    (currentMode, true)

/-- C4: setting the system mode stores the normalized payload
(string-convert, trim whitespace, title-case) exactly when that
normalization equals "Home" or "Away" (and then no warning is logged);
for any other payload the current mode is retained unchanged and the
invalid-mode warning is recorded. -/
theorem c4_set_mode_validation (currentMode payload : String) :
    (normalizeMode payload = "Home" ∨ normalizeMode payload = "Away" →
      set_system_mode currentMode payload = (normalizeMode payload, false)) ∧
    (¬(normalizeMode payload = "Home" ∨ normalizeMode payload = "Away") →
      set_system_mode currentMode payload = (currentMode, true)) := by
  constructor
  · intro h
    simp [set_system_mode, h]
  · intro h
    simp [set_system_mode, h]

/-- C4 (witness): at mode "Home", the payload "  away " is accepted and
stores "Away"; the payload "Lockdown" is rejected with a warning and the
mode is retained. -/
theorem c4_witness :
    set_system_mode "Home" "  away " = ("Away", false) ∧
    set_system_mode "Home" "Lockdown" = ("Home", true) := by
  constructor
  · have h := (c4_set_mode_validation "Home" "  away ").1 (Or.inr (by decide))
    rw [h]
    decide
  · exact (c4_set_mode_validation "Home" "Lockdown").2 (by decide)

/-! ### Device control (`device_control_module.py`) -/

/-- Per-device state held in `self.devices[name]`: the GPIO line level
written through `pin.value` (`true` = HIGH = ON under the module's
active-high convention) and the recorded `status` string. -/
structure DeviceInfo where
  pinValue : Bool
  status : String
  deriving DecidableEq, Repr

/-- The `self.devices` dictionary after `initialize_gpios` succeeded for
all three controlled devices (light, fan, buzzer). -/
structure Devices where
  light : DeviceInfo
  fan : DeviceInfo
  buzzer : DeviceInfo
  deriving DecidableEq, Repr

/-- `initialize_gpios` (device_control_module.py lines 33-51): every
device starts with the pin driven LOW and status "off". -/
def initDevices : Devices :=
  { light := ⟨false, "off"⟩, fan := ⟨false, "off"⟩, buzzer := ⟨false, "off"⟩ }

/-- `device_name in self.devices` lookup. -/
def getDevice (d : Devices) (name : String) : Option DeviceInfo :=
  if name = "light" then some d.light
  else if name = "fan" then some d.fan
  else if name = "buzzer" then some d.buzzer
  else none

/-- Write-back of `self.devices[device_name]`. -/
def setDevice (d : Devices) (name : String) (info : DeviceInfo) : Devices :=
  if name = "light" then { d with light := info }
  else if name = "fan" then { d with fan := info }
  else if name = "buzzer" then { d with buzzer := info }
  else d

/-- `device_control_module.process_command` (lines 53-75): unknown
device or unrecognized payload is rejected (`False`) with state
untouched; `on`/`1` drives the pin HIGH and records "on"; `off`/`0`
drives it LOW and records "off". -/
def process_command (devs : Devices) (deviceName command : String) :
    Devices × Bool :=
  match getDevice devs deviceName with
  | none => (devs, false)
  | some _ =>
    if pyLower command = "on" ∨ pyLower command = "1" then
      (setDevice devs deviceName ⟨true, "on"⟩, true)
    else if pyLower command = "off" ∨ pyLower command = "0" then
      (setDevice devs deviceName ⟨false, "off"⟩, true)
    else
      (devs, false)

theorem getDevice_isSome_iff (d : Devices) (name : String) :
    (getDevice d name).isSome = true ↔
      name = "light" ∨ name = "fan" ∨ name = "buzzer" := by
  simp only [getDevice]
  split_ifs with h1 h2 h3 <;> simp_all

theorem getDevice_setDevice_self (d : Devices) (name : String)
    (info : DeviceInfo) (h : name = "light" ∨ name = "fan" ∨ name = "buzzer") :
    getDevice (setDevice d name info) name = some info := by
  rcases h with h | h | h <;> subst h <;> rfl

/-- C10: `process_command` accepts exactly the known devices
{light, fan, buzzer} with lowercased payload in {"on","1","off","0"};
on any rejected input the device table (recorded statuses and pin
levels) is unchanged; after every accepted command the touched device's
recorded status is "on" precisely when its pin level is HIGH. -/
theorem c10_process_command_spec (devs : Devices) (deviceName command : String) :
    ((process_command devs deviceName command).2 = true ↔
      (deviceName = "light" ∨ deviceName = "fan" ∨ deviceName = "buzzer") ∧
      (pyLower command = "on" ∨ pyLower command = "1" ∨
       pyLower command = "off" ∨ pyLower command = "0")) ∧
    ((process_command devs deviceName command).2 = false →
      (process_command devs deviceName command).1 = devs) ∧
    ((process_command devs deviceName command).2 = true →
      ∀ info, getDevice (process_command devs deviceName command).1 deviceName
          = some info →
        (info.status = "on" ↔ info.pinValue = true)) := by
  by_cases hdev : deviceName = "light" ∨ deviceName = "fan" ∨ deviceName = "buzzer"
  · have hsome : (getDevice devs deviceName).isSome = true :=
      (getDevice_isSome_iff devs deviceName).mpr hdev
    obtain ⟨info0, hinfo0⟩ := Option.isSome_iff_exists.mp hsome
    by_cases hon : pyLower command = "on" ∨ pyLower command = "1"
    · refine ⟨?_, ?_, ?_⟩
      · simp [process_command, hinfo0, hon, hdev]
        tauto
      · simp [process_command, hinfo0, hon]
      · intro _ info hget
        rw [process_command, hinfo0] at hget
        simp only [hon, if_pos] at hget
        rw [getDevice_setDevice_self devs deviceName _ hdev] at hget
        cases hget
        simp
    · by_cases hoff : pyLower command = "off" ∨ pyLower command = "0"
      · refine ⟨?_, ?_, ?_⟩
        · simp [process_command, hinfo0, hon, hoff, hdev]
          try tauto
        · simp [process_command, hinfo0, hon, hoff]
        · intro _ info hget
          rw [process_command, hinfo0] at hget
          simp only [hon, hoff, if_neg, if_pos, not_false_iff] at hget
          rw [getDevice_setDevice_self devs deviceName _ hdev] at hget
          cases hget
          simp
      · refine ⟨?_, ?_, ?_⟩
        · simp [process_command, hinfo0, hon, hoff]
          try tauto
        · simp [process_command, hinfo0, hon, hoff]
        · intro hacc
          rw [process_command, hinfo0] at hacc
          simp [hon, hoff] at hacc
  · have hnone : getDevice devs deviceName = none := by
      simp only [getDevice]
      split_ifs with h1 h2 h3 <;> simp_all
    refine ⟨?_, ?_, ?_⟩
    · simp [process_command, hnone]
      tauto
    · simp [process_command, hnone]
    · intro hacc
      rw [process_command, hnone] at hacc
      simp at hacc

/-- C10 (witness): the specification theorem applied at the initial
device table, to an accepted command ("light" / "ON"), a rejected
payload ("fan" / "blast") and an unknown device ("door" / "on"). -/
theorem c10_witness :
    ((process_command initDevices "light" "ON").2 = true ↔
      ("light" = "light" ∨ "light" = "fan" ∨ "light" = "buzzer") ∧
      (pyLower "ON" = "on" ∨ pyLower "ON" = "1" ∨
       pyLower "ON" = "off" ∨ pyLower "ON" = "0")) ∧
    (process_command initDevices "fan" "blast").1 = initDevices ∧
    (∀ info, getDevice (process_command initDevices "light" "ON").1 "light"
        = some info → (info.status = "on" ↔ info.pinValue = true)) ∧
    (process_command initDevices "door" "on").1 = initDevices :=
  ⟨(c10_process_command_spec initDevices "light" "ON").1,
   (c10_process_command_spec initDevices "fan" "blast").2.1 (by decide),
   (c10_process_command_spec initDevices "light" "ON").2.2 (by decide),
   (c10_process_command_spec initDevices "door" "on").2.1 (by decide)⟩

/-! ### Security aggregation (`App.py` lines 125-163) -/

/-- The record returned by `security_module.get_security_data` as the
data-collection loop sees it: the three detection flags and whether an
image was captured for this event (`image_path is not None`). -/
structure SecRecord where
  motionDetected : Bool
  smokeDetected : Bool
  soundDetected : Bool
  imageCaptured : Bool
  deriving DecidableEq, Repr

/-- The three intrusion kinds aggregated by the loop
(`security_counts` keys 'motion', 'smoke', 'sound'). -/
inductive SensorKind
  | motion
  | smoke
  | sound
  deriving DecidableEq, Repr

/-- The detection flag of a record for a given kind
(`sec_data[f'\x7bkey\x7d_detected']`). -/
def SecRecord.flag (r : SecRecord) : SensorKind → Bool
  | .motion => r.motionDetected
  | .smoke => r.smokeDetected
  | .sound => r.soundDetected

/-- The `security_counts` dictionary. -/
structure SecurityCounts where
  motion : Nat
  smoke : Nat
  sound : Nat
  deriving DecidableEq, Repr

/-- Per-kind read of the counts dictionary. -/
def SecurityCounts.get (c : SecurityCounts) : SensorKind → Nat
  | .motion => c.motion
  | .smoke => c.smoke
  | .sound => c.sound

/-- The timer dictionary of the data-collection loop (App.py line 180):
`timers = {'env_check': 0, 'security_check': 0,
'security_send': time.time()}`. -/
structure Timers where
  envCheck : Nat
  securityCheck : Nat
  securitySend : Nat
  deriving DecidableEq, Repr

/-- The `for key in ['motion', 'smoke', 'sound']` loop of
`collect_security_data` (App.py lines 129-132): each kind whose
detection flag is set is incremented by one. -/
def applyDetections (counts : SecurityCounts) (r : SecRecord) : SecurityCounts :=
  { motion := counts.motion + (if r.motionDetected then 1 else 0),
    smoke := counts.smoke + (if r.smokeDetected then 1 else 0),
    sound := counts.sound + (if r.soundDetected then 1 else 0) }

/-- Observable actions of the security-poll gate: whether the gate fired
and whether the raw event was appended to the audit log file (it is
written exactly when some detection flag is true, lines 134-136). -/
structure PollEffects where
  pollFired : Bool
  eventLogged : Bool
  deriving DecidableEq, Repr

/-- Result of the security-poll gate. -/
structure PollResult where
  timers : Timers
  counts : SecurityCounts
  fx : PollEffects
  deriving DecidableEq, Repr

/-- The first gate of `collect_security_data` (App.py lines 126-138):
when `security_check_interval` has elapsed, increment the per-kind
counts from the record's flags, append the raw event to the audit log
when some flag is true, and reset only the `security_check` timer. -/
def securityPollStep (checkInterval t : Nat) (timers : Timers)
    (counts : SecurityCounts) (r : SecRecord) : PollResult :=
  if checkInterval ≤ t - timers.securityCheck then
    { timers := { timers with securityCheck := t },
      counts := applyDetections counts r,
      fx := { pollFired := true,
              eventLogged := r.motionDetected || r.smokeDetected || r.soundDetected } }
  else
    { timers := timers, counts := counts, fx := ⟨false, false⟩ }

/-- Observable actions of the summary-report gate: whether the gate
fired (the `security_send` timer was reset), whether
`insert_security_summary` was called, whether `send_to_cloud` was
called, and whether that publish succeeded. -/
structure ReportEffects where
  reportFired : Bool
  summaryPersisted : Bool
  publishCalled : Bool
  publishSucceeded : Bool
  deriving DecidableEq, Repr

/-- Result of the summary-report gate. -/
structure ReportResult where
  timers : Timers
  counts : SecurityCounts
  fx : ReportEffects
  deriving DecidableEq, Repr

/-- The second gate of `collect_security_data` (App.py lines 140-163):
when `security_send_interval` has elapsed and some count is positive,
persist the summary, call `send_to_cloud` (whose success `publishOk`
only selects the log message, lines 152-155) and reset all three counts
to zero; with all counts zero, nothing is persisted or published. The
`security_send` timer is reset in both cases. -/
def securityReportStep (sendInterval t : Nat) (publishOk : Bool)
    (timers : Timers) (counts : SecurityCounts) : ReportResult :=
  if sendInterval ≤ t - timers.securitySend then
    -- the `security_send` timer reset (line 163) is common to both the
    -- some-count-positive branch and the all-zero branch
    { timers := { timers with securitySend := t },
      counts :=
        if 0 < counts.motion ∨ 0 < counts.smoke ∨ 0 < counts.sound then
          ⟨0, 0, 0⟩
        else counts,
      fx := { reportFired := true,
              summaryPersisted :=
                decide (0 < counts.motion ∨ 0 < counts.smoke ∨ 0 < counts.sound),
              publishCalled :=
                decide (0 < counts.motion ∨ 0 < counts.smoke ∨ 0 < counts.sound),
              publishSucceeded :=
                decide (0 < counts.motion ∨ 0 < counts.smoke ∨ 0 < counts.sound)
                  && publishOk } }
  else
    { timers := timers, counts := counts,
      fx := { reportFired := false, summaryPersisted := false,
              publishCalled := false, publishSucceeded := false } }

/-- Result of one `collect_security_data` call: the two gates run in
sequence over the shared timer dictionary and counts. -/
structure SecCollectResult where
  timers : Timers
  counts : SecurityCounts
  poll : PollEffects
  report : ReportEffects
  deriving DecidableEq, Repr

/-- `DomiSafeApp.collect_security_data` (App.py lines 125-163). -/
def collect_security_data (checkInterval sendInterval t : Nat)
    (timers : Timers) (counts : SecurityCounts) (r : SecRecord)
    (publishOk : Bool) : SecCollectResult :=
  let p := securityPollStep checkInterval t timers counts r
  let q := securityReportStep sendInterval t publishOk p.timers p.counts
  { timers := q.timers, counts := q.counts, poll := p.fx, report := q.fx }

/-- C3: a summary-report flush (the report gate fires) with some count
positive persists a summary and resets all three counts to zero, for
either publish outcome; a report tick with all three counts zero calls
neither `insert_security_summary` nor `send_to_cloud`. -/
theorem c3_summary_flush_resets_counts (sendInterval t : Nat)
    (publishOk : Bool) (timers : Timers) (counts : SecurityCounts)
    (hgate : sendInterval ≤ t - timers.securitySend) :
    (0 < counts.motion ∨ 0 < counts.smoke ∨ 0 < counts.sound →
      (securityReportStep sendInterval t publishOk timers counts).counts
          = ⟨0, 0, 0⟩ ∧
      (securityReportStep sendInterval t publishOk timers counts).fx.summaryPersisted
          = true) ∧
    (counts.motion = 0 ∧ counts.smoke = 0 ∧ counts.sound = 0 →
      (securityReportStep sendInterval t publishOk timers counts).fx.summaryPersisted
          = false ∧
      (securityReportStep sendInterval t publishOk timers counts).fx.publishCalled
          = false ∧
      (securityReportStep sendInterval t publishOk timers counts).counts
          = counts) := by
  constructor
  · intro hpos
    simp [securityReportStep, hgate, hpos]
  · intro hzero
    have hneg : ¬(0 < counts.motion ∨ 0 < counts.smoke ∨ 0 < counts.sound) := by
      omega
    simp [securityReportStep, hgate, hneg]

/-- C3 (witness): a flush with motion count 2 resets the counts and
persists for both publish outcomes; a flush with all counts zero calls
nothing. -/
theorem c3_witness :
    ((securityReportStep 60 100 false ⟨0, 0, 0⟩ ⟨2, 0, 0⟩).counts = ⟨0, 0, 0⟩ ∧
     (securityReportStep 60 100 false ⟨0, 0, 0⟩ ⟨2, 0, 0⟩).fx.summaryPersisted
        = true) ∧
    ((securityReportStep 60 100 true ⟨0, 0, 0⟩ ⟨0, 0, 0⟩).fx.summaryPersisted
        = false ∧
     (securityReportStep 60 100 true ⟨0, 0, 0⟩ ⟨0, 0, 0⟩).fx.publishCalled
        = false ∧
     (securityReportStep 60 100 true ⟨0, 0, 0⟩ ⟨0, 0, 0⟩).counts = ⟨0, 0, 0⟩) :=
  ⟨(c3_summary_flush_resets_counts 60 100 false ⟨0, 0, 0⟩ ⟨2, 0, 0⟩
      (by decide)).1 (by decide),
   (c3_summary_flush_resets_counts 60 100 true ⟨0, 0, 0⟩ ⟨0, 0, 0⟩
      (by decide)).2 (by decide)⟩

/-- The per-record increment is exact: the count of a kind grows by one
precisely when the record's flag for that kind is set. -/
theorem applyDetections_get (counts : SecurityCounts) (r : SecRecord)
    (k : SensorKind) :
    (applyDetections counts r).get k
      = counts.get k + (if r.flag k then 1 else 0) := by
  cases k <;> rfl

/-- C5: over any sequence of security polls (each firing while
Mode = Away feeds one `get_security_data` record into the counting loop),
the count for kind k after processing N records whose flag for k is set
is exactly the initial count plus N — each detection counted once, none
skipped, none double-counted; and a firing poll gate applies exactly
this counting loop. -/
theorem c5_counts_exact :
    (∀ (checkInterval t : Nat) (timers : Timers) (counts : SecurityCounts)
        (r : SecRecord),
      checkInterval ≤ t - timers.securityCheck →
        (securityPollStep checkInterval t timers counts r).counts
          = applyDetections counts r) ∧
    (∀ (c0 : SecurityCounts) (rs : List SecRecord) (k : SensorKind),
      (rs.foldl applyDetections c0).get k
        = c0.get k + (rs.filter (fun r => r.flag k)).length) := by
  constructor
  · intro checkInterval t timers counts r hgate
    simp [securityPollStep, hgate]
  · intro c0 rs k
    induction rs generalizing c0 with
    | nil => simp
    | cons r rs ih =>
      rw [List.foldl_cons, ih (applyDetections c0 r), applyDetections_get]
      by_cases hf : r.flag k = true
      all_goals simp [hf]
      all_goals omega

/-- C5 (witness): a firing poll applies the counting loop, and three
records with two motion flags yield exactly motion count 2. -/
theorem c5_witness :
    (securityPollStep 5 10 ⟨0, 0, 0⟩ ⟨0, 0, 0⟩ ⟨true, false, false, false⟩).counts
        = applyDetections ⟨0, 0, 0⟩ ⟨true, false, false, false⟩ ∧
    (([⟨true, false, false, false⟩, ⟨false, true, false, false⟩,
       ⟨true, false, false, false⟩] :
        List SecRecord).foldl applyDetections ⟨0, 0, 0⟩).get SensorKind.motion
      = (⟨0, 0, 0⟩ : SecurityCounts).get SensorKind.motion + 2 :=
  ⟨c5_counts_exact.1 5 10 ⟨0, 0, 0⟩ ⟨0, 0, 0⟩ ⟨true, false, false, false⟩
      (by decide),
   by
    rw [c5_counts_exact.2 ⟨0, 0, 0⟩ _ SensorKind.motion]
    decide⟩

/-! ### The data-collection runloop (`App.py` lines 108-123 and 165-202) -/

/-- `DomiSafeApp.collect_environmental_data` (App.py lines 108-123):
when `env_interval` has elapsed, the sample is read, written to the log
file, inserted into the local database and published (a publish failure
only selects the log message, lines 118-121), and only the `env_check`
timer is reset. The returned flag records whether the gate fired. -/
def collect_environmental_data (envInterval t : Nat) (timers : Timers) :
    Timers × Bool :=
  if envInterval ≤ t - timers.envCheck then
    ({ timers with envCheck := t }, true)
  else
    (timers, false)

/-- The recognized configuration intervals with their built-in defaults
(`DomiSafeApp.load_config`, App.py lines 55-67). -/
structure Config where
  securityCheckInterval : Nat
  securitySendInterval : Nat
  envInterval : Nat
  flushingInterval : Nat
  deriving DecidableEq, Repr

/-- The built-in default configuration: security check 5 s, security
send 60 s, env 360 s, flushing 10 s. -/
def defaultConfig : Config :=
  { securityCheckInterval := 5, securitySendInterval := 60,
    envInterval := 360, flushingInterval := 10 }

/-- The mutable state of `DomiSafeApp` touched by the data-collection
loop and the inbound command handler: the operating mode, the loop's
timer dictionary, the per-kind counts, the force-flush clock, the
device table, the number of manual captures triggered, and the
acknowledgment values published back to feeds. -/
structure AppState where
  systemMode : String
  timers : Timers
  counts : SecurityCounts
  lastFsync : Nat
  devices : Devices
  manualCaptures : Nat
  acks : List (String × String)
  deriving DecidableEq, Repr

/-- Observable actions of one iteration of `data_collection_loop`. -/
structure TickEffects where
  envFired : Bool
  poll : PollEffects
  report : ReportEffects
  fsyncFired : Bool
  deriving DecidableEq, Repr

/-- One iteration of the `while self.running` body of
`DomiSafeApp.data_collection_loop` (App.py lines 183-198): the env gate
is checked unconditionally; `collect_security_data` — and with it both
the security-poll gate and the summary-report gate — runs only when
`self.system_mode == 'Away'`; the periodic fsync gate is checked
unconditionally. `r` is the record `get_security_data` would return and
`publishOk` the outcome of a summary publish. -/
def dataCollectionTick (cfg : Config) (st : AppState) (t : Nat)
    (r : SecRecord) (publishOk : Bool) : AppState × TickEffects :=
  let e := collect_environmental_data cfg.envInterval t st.timers
  if st.systemMode = "Away" then
    let c := collect_security_data cfg.securityCheckInterval
      cfg.securitySendInterval t e.1 st.counts r publishOk
    if cfg.flushingInterval < t - st.lastFsync then
      ({ st with timers := c.timers, counts := c.counts, lastFsync := t },
       { envFired := e.2, poll := c.poll, report := c.report, fsyncFired := true })
    else
      ({ st with timers := c.timers, counts := c.counts },
       { envFired := e.2, poll := c.poll, report := c.report, fsyncFired := false })
  else
    if cfg.flushingInterval < t - st.lastFsync then
      ({ st with timers := e.1, lastFsync := t },
       { envFired := e.2, poll := ⟨false, false⟩,
         report := ⟨false, false, false, false⟩, fsyncFired := true })
    else
      ({ st with timers := e.1 },
       { envFired := e.2, poll := ⟨false, false⟩,
         report := ⟨false, false, false, false⟩, fsyncFired := false })

/-- A record with no detections and no capture. -/
def quietRecord : SecRecord := ⟨false, false, false, false⟩

/-- A loop state in Home mode whose summary-report interval has long
elapsed and whose counts are nonzero. -/
def homeReportDue : AppState :=
  { systemMode := "Home", timers := ⟨0, 0, 0⟩, counts := ⟨3, 0, 0⟩,
    lastFsync := 100, devices := initDevices, manualCaptures := 0, acks := [] }

/-- A fresh Away-mode loop state as set up at loop start with a start
clock of 0 (App.py lines 179-181). -/
def awayFresh : AppState :=
  { systemMode := "Away", timers := ⟨0, 0, 0⟩, counts := ⟨0, 0, 0⟩,
    lastFsync := 0, devices := initDevices, manualCaptures := 0, acks := [] }

/-- C6 (counterexample): in Home mode at t = 100 with the summary
interval (60 s) long elapsed and a nonzero motion count, the tick
neither fires the summary-report gate nor resets its timer — the
summary-report gate is NOT checked unconditionally; it is conditioned
on Mode = Away just like the security-poll gate, refuting the claim
that only the security-poll gate is mode-conditioned. -/
theorem c6_counterexample :
    defaultConfig.securitySendInterval
        ≤ 100 - homeReportDue.timers.securitySend ∧
    0 < homeReportDue.counts.motion ∧
    (dataCollectionTick defaultConfig homeReportDue 100 quietRecord
        true).2.report.reportFired = false ∧
    (dataCollectionTick defaultConfig homeReportDue 100 quietRecord
        true).1.timers.securitySend = 0 ∧
    (dataCollectionTick defaultConfig homeReportDue 100 quietRecord
        true).1.counts = ⟨3, 0, 0⟩ := by
  decide

/-- C6 (amended): on every iteration the env-poll and force-flush gates
are checked unconditionally against the current clock, while BOTH the
security-poll gate and the summary-report gate are conditioned on
Mode = Away; each gate fires exactly when its own interval has elapsed
(given its mode condition) and resets only its own timer. A tick at
t = 0 with env_interval = 360 does not fire the env gate; a tick at
t = 361 fires it exactly once and resets the env timer to 361. -/
theorem c6_gates_mode_conditioned :
    (∀ (cfg : Config) (st : AppState) (t : Nat) (r : SecRecord)
        (publishOk : Bool),
      (dataCollectionTick cfg st t r publishOk).2.envFired
          = decide (cfg.envInterval ≤ t - st.timers.envCheck) ∧
      (dataCollectionTick cfg st t r publishOk).1.timers.envCheck
          = (if cfg.envInterval ≤ t - st.timers.envCheck then t
             else st.timers.envCheck) ∧
      (dataCollectionTick cfg st t r publishOk).2.poll.pollFired
          = (decide (st.systemMode = "Away")
              && decide (cfg.securityCheckInterval
                          ≤ t - st.timers.securityCheck)) ∧
      (dataCollectionTick cfg st t r publishOk).1.timers.securityCheck
          = (if st.systemMode = "Away"
                ∧ cfg.securityCheckInterval ≤ t - st.timers.securityCheck
             then t else st.timers.securityCheck) ∧
      (dataCollectionTick cfg st t r publishOk).2.report.reportFired
          = (decide (st.systemMode = "Away")
              && decide (cfg.securitySendInterval
                          ≤ t - st.timers.securitySend)) ∧
      (dataCollectionTick cfg st t r publishOk).1.timers.securitySend
          = (if st.systemMode = "Away"
                ∧ cfg.securitySendInterval ≤ t - st.timers.securitySend
             then t else st.timers.securitySend) ∧
      (dataCollectionTick cfg st t r publishOk).2.fsyncFired
          = decide (cfg.flushingInterval < t - st.lastFsync) ∧
      (dataCollectionTick cfg st t r publishOk).1.lastFsync
          = (if cfg.flushingInterval < t - st.lastFsync then t
             else st.lastFsync)) ∧
    (dataCollectionTick defaultConfig awayFresh 0 quietRecord
        true).2.envFired = false ∧
    (dataCollectionTick defaultConfig awayFresh 361 quietRecord
        true).2.envFired = true ∧
    (dataCollectionTick defaultConfig awayFresh 361 quietRecord
        true).1.timers.envCheck = 361 := by
  refine ⟨?_, by decide, by decide, by decide⟩
  intro cfg st t r publishOk
  by_cases hm : st.systemMode = "Away" <;>
    by_cases he : cfg.envInterval ≤ t - st.timers.envCheck <;>
      by_cases hp : cfg.securityCheckInterval ≤ t - st.timers.securityCheck <;>
        by_cases hs : cfg.securitySendInterval ≤ t - st.timers.securitySend <;>
          by_cases hf : cfg.flushingInterval < t - st.lastFsync <;>
            simp [dataCollectionTick, collect_environmental_data,
              collect_security_data, securityPollStep, securityReportStep,
              hm, he, hp, hs, hf]

/-! ### Inbound command routing (`App.py` lines 75-89) -/

/-- The five control feeds of `CONTROL_FEEDS` (App.py lines 28-34). -/
def knownControlFeeds : List String :=
  ["light-control", "fan-control", "buzzer-control", "system-mode",
   "camera-trigger"]

/-- `DomiSafeApp.handle_incoming_mqtt_command` (App.py lines 75-89):
the mode feed goes to `set_system_mode`; the camera feed with payload
upper-casing to TAKE_PHOTO or 1 triggers a manual capture and publishes
the PHOTO_TAKEN acknowledgment; the three actuator feeds forward the
payload to `process_command`; anything else — including the camera feed
with any other payload, which the final loop skips — falls through with
no effect. -/
def handle_incoming_mqtt_command (st : AppState) (feedName payload : String) :
    AppState :=
  if feedName = "system-mode" then
    { st with systemMode := (set_system_mode st.systemMode payload).1 }
  else if feedName = "camera-trigger"
      ∧ (pyUpper payload = "TAKE_PHOTO" ∨ pyUpper payload = "1") then
    { st with manualCaptures := st.manualCaptures + 1,
              acks := st.acks ++ [("camera-trigger", "PHOTO_TAKEN")] }
  else if feedName = "light-control" then
    { st with devices := (process_command st.devices "light" payload).1 }
  else if feedName = "fan-control" then
    { st with devices := (process_command st.devices "fan" payload).1 }
  else if feedName = "buzzer-control" then
    { st with devices := (process_command st.devices "buzzer" payload).1 }
  else
    st

/-- The `DomiSafeApp` state at startup, before any inbound command and
before any tick: mode Home (App.py line 40), loop timers as set at loop
start with clock `startTime` (line 180: `env_check` 0, `security_check`
0, `security_send` = now), zero counts, fresh device table, no captures
and no acknowledgments. -/
def initialAppState (startTime : Nat) : AppState :=
  { systemMode := "Home", timers := ⟨0, 0, startTime⟩, counts := ⟨0, 0, 0⟩,
    lastFsync := startTime, devices := initDevices, manualCaptures := 0,
    acks := [] }

/-- The guard conditions of the four routing branches of §4.5, in
priority order: mode feed; camera feed with an accepted trigger
payload; actuator feed; no match. -/
def branchGuards (feedName payload : String) : List Bool :=
  [feedName == "system-mode",
   feedName == "camera-trigger"
     && (pyUpper payload == "TAKE_PHOTO" || pyUpper payload == "1"),
   feedName == "light-control" || feedName == "fan-control"
     || feedName == "buzzer-control",
   !(feedName == "system-mode")
     && !(feedName == "camera-trigger"
           && (pyUpper payload == "TAKE_PHOTO" || pyUpper payload == "1"))
     && !(feedName == "light-control" || feedName == "fan-control"
           || feedName == "buzzer-control")]

/-- C7: command routing is total and side-effect-isolated — every
inbound (feedName, payload) message satisfies exactly one of the four
routing-branch guards, and a message whose feed name matches none of
the known control feeds leaves the device table, the stored mode and
the manual-capture count (indeed the whole application state)
unchanged. -/
theorem c7_routing_total_isolated (st : AppState) (feedName payload : String) :
    (branchGuards feedName payload).count true = 1 ∧
    (feedName ∉ knownControlFeeds →
      (handle_incoming_mqtt_command st feedName payload).devices
          = st.devices ∧
      (handle_incoming_mqtt_command st feedName payload).systemMode
          = st.systemMode ∧
      (handle_incoming_mqtt_command st feedName payload).manualCaptures
          = st.manualCaptures ∧
      handle_incoming_mqtt_command st feedName payload = st) := by
  constructor
  · by_cases h1 : feedName = "system-mode"
    · subst h1
      simp only [branchGuards]
      generalize (pyUpper payload == "TAKE_PHOTO" || pyUpper payload == "1") = b
      cases b <;> decide
    · by_cases h2 : feedName = "camera-trigger"
      · subst h2
        simp only [branchGuards]
        generalize (pyUpper payload == "TAKE_PHOTO" || pyUpper payload == "1") = b
        cases b <;> decide
      · by_cases h3 : feedName = "light-control"
        · subst h3
          simp only [branchGuards]
          generalize (pyUpper payload == "TAKE_PHOTO" || pyUpper payload == "1") = b
          cases b <;> decide
        · by_cases h4 : feedName = "fan-control"
          · subst h4
            simp only [branchGuards]
            generalize (pyUpper payload == "TAKE_PHOTO" || pyUpper payload == "1") = b
            cases b <;> decide
          · by_cases h5 : feedName = "buzzer-control"
            · subst h5
              simp only [branchGuards]
              generalize (pyUpper payload == "TAKE_PHOTO"
                || pyUpper payload == "1") = b
              cases b <;> decide
            · have e1 : (feedName == "system-mode") = false :=
                beq_eq_false_iff_ne.mpr h1
              have e2 : (feedName == "camera-trigger") = false :=
                beq_eq_false_iff_ne.mpr h2
              have e3 : (feedName == "light-control") = false :=
                beq_eq_false_iff_ne.mpr h3
              have e4 : (feedName == "fan-control") = false :=
                beq_eq_false_iff_ne.mpr h4
              have e5 : (feedName == "buzzer-control") = false :=
                beq_eq_false_iff_ne.mpr h5
              simp [branchGuards, e1, e2, e3, e4, e5]
  · intro hfeed
    simp only [knownControlFeeds, List.mem_cons, List.not_mem_nil, or_false,
      not_or] at hfeed
    obtain ⟨h3, h4, h5, h1, h2⟩ := hfeed
    have hstep : handle_incoming_mqtt_command st feedName payload = st := by
      simp [handle_incoming_mqtt_command, h1, h2, h3, h4, h5]
    exact ⟨by rw [hstep], by rw [hstep], by rw [hstep], hstep⟩

/-- C7 (witness): the routing theorem applied to the unmatched feed
"door-control" at a concrete state. -/
theorem c7_witness :
    (branchGuards "door-control" "on").count true = 1 ∧
    handle_incoming_mqtt_command (initialAppState 0) "door-control" "on"
        = initialAppState 0 :=
  ⟨(c7_routing_total_isolated (initialAppState 0) "door-control" "on").1,
   ((c7_routing_total_isolated (initialAppState 0) "door-control" "on").2
      (by decide)).2.2.2⟩

/-! ### Startup behavior over a trace of ticks and commands -/

/-- An externally observable event driving the application: one
iteration of the data-collection loop (with its clock reading, the
record the security module would return, and the publish outcome), or
one inbound MQTT command delivered to the handler callback. -/
inductive AppEvent
  | tick (t : Nat) (r : SecRecord) (publishOk : Bool)
  | command (feedName payload : String)
  deriving DecidableEq, Repr

/-- Run a trace of events from a state, collecting every tick's
effects in order. -/
def appRun (cfg : Config) (st : AppState) :
    List AppEvent → AppState × List TickEffects
  | [] => (st, [])
  | AppEvent.tick t r publishOk :: es =>
    let s := dataCollectionTick cfg st t r publishOk
    let rest := appRun cfg s.1 es
    (rest.1, s.2 :: rest.2)
  | AppEvent.command feedName payload :: es =>
    appRun cfg (handle_incoming_mqtt_command st feedName payload) es

/-- An accepted Away command: a message on the mode feed whose payload
normalizes to "Away". -/
def isAwayCommand : AppEvent → Bool
  | .command feedName payload =>
    feedName == "system-mode" && (normalizeMode payload == "Away")
  | .tick _ _ _ => false

theorem dataCollectionTick_mode (cfg : Config) (st : AppState) (t : Nat)
    (r : SecRecord) (publishOk : Bool) :
    (dataCollectionTick cfg st t r publishOk).1.systemMode = st.systemMode := by
  by_cases hm : st.systemMode = "Away" <;>
    by_cases hf : cfg.flushingInterval < t - st.lastFsync <;>
      simp [dataCollectionTick, hm, hf]

theorem dataCollectionTick_home_noSecurity (cfg : Config) (st : AppState)
    (t : Nat) (r : SecRecord) (publishOk : Bool)
    (hmode : st.systemMode = "Home") :
    (dataCollectionTick cfg st t r publishOk).2.poll.pollFired = false ∧
    (dataCollectionTick cfg st t r publishOk).2.report.reportFired = false ∧
    (dataCollectionTick cfg st t r publishOk).2.report.summaryPersisted
      = false := by
  have hm : ¬st.systemMode = "Away" := by rw [hmode]; decide
  by_cases hf : cfg.flushingInterval < t - st.lastFsync <;>
    simp [dataCollectionTick, hm, hf]

theorem handle_command_mode_home (st : AppState) (feedName payload : String)
    (hmode : st.systemMode = "Home")
    (hn : ¬(feedName = "system-mode" ∧ normalizeMode payload = "Away")) :
    (handle_incoming_mqtt_command st feedName payload).systemMode = "Home" := by
  by_cases h1 : feedName = "system-mode"
  · have hnotAway : normalizeMode payload ≠ "Away" := fun hc => hn ⟨h1, hc⟩
    by_cases hh : normalizeMode payload = "Home"
    · simp [handle_incoming_mqtt_command, h1, set_system_mode, hh]
    · have hinv : ¬(normalizeMode payload = "Home"
          ∨ normalizeMode payload = "Away") := by
        intro hc
        rcases hc with hc | hc
        · exact hh hc
        · exact hnotAway hc
      simp [handle_incoming_mqtt_command, h1, set_system_mode, hinv, hmode]
  · by_cases h2 : feedName = "camera-trigger"
        ∧ (pyUpper payload = "TAKE_PHOTO" ∨ pyUpper payload = "1") <;>
      by_cases h3 : feedName = "light-control" <;>
        by_cases h4 : feedName = "fan-control" <;>
          by_cases h5 : feedName = "buzzer-control" <;>
            simp [handle_incoming_mqtt_command, h1, h2, h3, h4, h5, hmode]

theorem appRun_home_invariant (cfg : Config) :
    ∀ (evs : List AppEvent) (st : AppState),
      st.systemMode = "Home" →
      (∀ e ∈ evs, isAwayCommand e = false) →
      (appRun cfg st evs).1.systemMode = "Home" ∧
      ∀ fx ∈ (appRun cfg st evs).2,
        fx.poll.pollFired = false ∧ fx.report.reportFired = false ∧
        fx.report.summaryPersisted = false := by
  intro evs
  induction evs with
  | nil =>
    intro st hmode _
    exact ⟨hmode, by simp [appRun]⟩
  | cons e es ih =>
    intro st hmode hnone
    have hes : ∀ e2 ∈ es, isAwayCommand e2 = false := fun e2 he2 =>
      hnone e2 (List.mem_cons_of_mem e he2)
    cases e with
    | tick t r publishOk =>
      have hmode1 : (dataCollectionTick cfg st t r publishOk).1.systemMode
          = "Home" := by rw [dataCollectionTick_mode]; exact hmode
      obtain ⟨hrun, hfx⟩ :=
        ih (dataCollectionTick cfg st t r publishOk).1 hmode1 hes
      refine ⟨hrun, ?_⟩
      intro fx hfxmem
      simp only [appRun, List.mem_cons] at hfxmem
      rcases hfxmem with hfxmem | hfxmem
      · rw [hfxmem]
        exact dataCollectionTick_home_noSecurity cfg st t r publishOk hmode
      · exact hfx fx hfxmem
    | command feedName payload =>
      have hcmd : isAwayCommand (AppEvent.command feedName payload) = false :=
        hnone _ (List.mem_cons_self _ _)
      have hn : ¬(feedName = "system-mode"
          ∧ normalizeMode payload = "Away") := by
        intro ⟨hf, hp⟩
        rw [isAwayCommand, hf, hp] at hcmd
        simp at hcmd
      have hmode1 :
          (handle_incoming_mqtt_command st feedName payload).systemMode
            = "Home" := handle_command_mode_home st feedName payload hmode hn
      exact ih (handle_incoming_mqtt_command st feedName payload) hmode1 hes

/-- C9: starting from the application's startup state (mode Home), a
trace containing no accepted Away command — any mix of loop ticks and
other inbound commands — leaves the mode at Home throughout, and no
tick of the trace fires the security-poll gate, fires the
summary-report gate, or persists a summary. -/
theorem c9_startup_mode_home (cfg : Config) (startTime : Nat)
    (evs : List AppEvent) (h : ∀ e ∈ evs, isAwayCommand e = false) :
    (appRun cfg (initialAppState startTime) evs).1.systemMode = "Home" ∧
    ∀ fx ∈ (appRun cfg (initialAppState startTime) evs).2,
      fx.poll.pollFired = false ∧ fx.report.reportFired = false ∧
      fx.report.summaryPersisted = false :=
  appRun_home_invariant cfg evs (initialAppState startTime) rfl h

/-- A trace with ticks, an explicit Home command, an invalid mode
command and an actuator command — but no accepted Away command. -/
def traceNoAway : List AppEvent :=
  [AppEvent.tick 10 ⟨true, false, false, false⟩ true,
   AppEvent.command "system-mode" "home",
   AppEvent.command "system-mode" "lockdown",
   AppEvent.command "light-control" "on",
   AppEvent.tick 400 ⟨true, true, false, false⟩ false]

/-- C9 (witness): the startup theorem applied to a concrete trace. -/
theorem c9_witness :
    (appRun defaultConfig (initialAppState 0) traceNoAway).1.systemMode
        = "Home" ∧
    ∀ fx ∈ (appRun defaultConfig (initialAppState 0) traceNoAway).2,
      fx.poll.pollFired = false ∧ fx.report.reportFired = false ∧
      fx.report.summaryPersisted = false :=
  c9_startup_mode_home defaultConfig 0 traceNoAway (by decide)

/-! ### Alert and capture cooldowns (`security_module.py`) -/

/-- The mutable cooldown state of `security_module`: the
`last_alert_time` dictionary (per alert-type last-fired timestamp) and
`last_capture_time`. -/
structure SecurityState where
  lastAlertTime : List (String × Nat)
  lastCaptureTime : Nat
  deriving DecidableEq, Repr

/-- `security_module.__init__` (lines 45-49): empty alert dictionary and
last capture time 0. -/
def initialSecurityState : SecurityState :=
  { lastAlertTime := [], lastCaptureTime := 0 }

/-- `self.ALERT_COOLDOWN = 300` (security_module.py line 46). -/
def ALERT_COOLDOWN : Nat := 300

/-- `self.last_alert_time.get(alert_type)`. -/
def alertLookup : List (String × Nat) → String → Option Nat
  | [], _ => none
  | (k, v) :: rest, key => if k = key then some v else alertLookup rest key

/-- `self.last_alert_time[alert_type] = now`. -/
def alertSet : List (String × Nat) → String → Nat → List (String × Nat)
  | [], key, now => [(key, now)]
  | (k, v) :: rest, key, now =>
    if k = key then (k, now) :: rest else (k, v) :: alertSet rest key now

/-- `security_module.send_smtp2go_alert` (lines 152-212): returns the
updated alert dictionary and whether an email was sent. The cooldown
suppresses the send when a previous timestamp exists, is truthy
(Python's `and` discards a stored timestamp of 0), and lies within
`ALERT_COOLDOWN` of now. `sendOk` injects whether the `try` block
(credential lookup plus SMTP transport) succeeds; on failure the
timestamp is NOT updated (line 207 runs only after a successful
send). -/
def send_smtp2go_alert (m : List (String × Nat)) (alertType : String)
    (now : Nat) (sendOk : Bool) : List (String × Nat) × Bool :=
  match alertLookup m alertType with
  | some last =>
    if last ≠ 0 ∧ now - last < ALERT_COOLDOWN then
      (m, false)
    else if sendOk then (alertSet m alertType now, true) else (m, false)
  | none => if sendOk then (alertSet m alertType now, true) else (m, false)

/-- Observable outcome of one `security_module.get_security_data` call:
the cooldown state afterward, the returned record, whether
`capture_image` was invoked, and whether an alert email went out. -/
structure SecPollOutcome where
  state : SecurityState
  record : SecRecord
  captureAttempted : Bool
  emailSent : Bool
  deriving DecidableEq, Repr

/-- `security_module.get_security_data` (lines 63-106). `pirValue` is
the PIR reading, `smokeRandomHit` the simulated smoke draw
(`random⟨⟩ < 0.001`), `captureOk` whether `capture_image` returns a
path rather than None, and `sendOk` the SMTP outcome. Motion with the
camera enabled and out of cooldown captures, advances
`last_capture_time` and sends the motion alert; motion inside the
cooldown is reported as `motion_detected = False`; otherwise a smoke
hit sends the smoke alert. -/
def get_security_data (cameraEnabled : Bool) (cooldownDuration : Nat)
    (st : SecurityState) (now : Nat)
    (pirValue smokeRandomHit captureOk sendOk : Bool) : SecPollOutcome :=
  if pirValue = true ∧ cameraEnabled = true then
    if cooldownDuration < now - st.lastCaptureTime then
      { state :=
          { lastAlertTime :=
              (send_smtp2go_alert st.lastAlertTime "Motion Detected" now
                sendOk).1,
            lastCaptureTime := now },
        record := { motionDetected := true, smokeDetected := smokeRandomHit,
                    soundDetected := false, imageCaptured := captureOk },
        captureAttempted := true,
        emailSent :=
          (send_smtp2go_alert st.lastAlertTime "Motion Detected" now
            sendOk).2 }
    else
      { state := st,
        record := { motionDetected := false, smokeDetected := smokeRandomHit,
                    soundDetected := false, imageCaptured := false },
        captureAttempted := false, emailSent := false }
  else if smokeRandomHit = true then
    { state :=
        { st with
          lastAlertTime :=
            (send_smtp2go_alert st.lastAlertTime "CRITICAL SMOKE ALERT" now
              sendOk).1 },
      record := { motionDetected := pirValue, smokeDetected := true,
                  soundDetected := false, imageCaptured := false },
      captureAttempted := false,
      emailSent :=
        (send_smtp2go_alert st.lastAlertTime "CRITICAL SMOKE ALERT" now
          sendOk).2 }
  else
    { state := st,
      record := { motionDetected := pirValue, smokeDetected := smokeRandomHit,
                  soundDetected := false, imageCaptured := false },
      captureAttempted := false, emailSent := false }

theorem alertLookup_set_self (m : List (String × Nat)) (key : String)
    (now : Nat) : alertLookup (alertSet m key now) key = some now := by
  induction m with
  | nil => simp [alertSet, alertLookup]
  | cons kv rest ih =>
    obtain ⟨k, v⟩ := kv
    by_cases hk : k = key <;> simp [alertSet, alertLookup, hk, ih]

theorem bool_toNat_le_one (b : Bool) : b.toNat ≤ 1 := by
  cases b <;> decide

/-- Two email-alert requests of the same kind within the cooldown
window produce at most one sent email, whatever the prior state and the
transport outcomes. -/
theorem email_cooldown_at_most_one (m : List (String × Nat)) (kind : String)
    (t1 t2 : Nat) (ok1 ok2 : Bool) (ht1 : 0 < t1)
    (hwin : t2 - t1 < ALERT_COOLDOWN) :
    (send_smtp2go_alert m kind t1 ok1).2.toNat
      + (send_smtp2go_alert (send_smtp2go_alert m kind t1 ok1).1 kind t2
          ok2).2.toNat ≤ 1 := by
  have ht1ne : t1 ≠ 0 := by omega
  cases hl : alertLookup m kind with
  | none =>
    cases ok1 with
    | true =>
      have h1 : send_smtp2go_alert m kind t1 true
          = (alertSet m kind t1, true) := by
        simp [send_smtp2go_alert, hl]
      rw [h1]
      have h2 : send_smtp2go_alert (alertSet m kind t1) kind t2 ok2
          = (alertSet m kind t1, false) := by
        simp [send_smtp2go_alert, alertLookup_set_self, ht1ne, hwin]
      rw [h2]
      simp
    | false =>
      have h1 : send_smtp2go_alert m kind t1 false = (m, false) := by
        simp [send_smtp2go_alert, hl]
      rw [h1]
      simpa using bool_toNat_le_one _
  | some last =>
    by_cases hsup : last ≠ 0 ∧ t1 - last < ALERT_COOLDOWN
    · have h1 : send_smtp2go_alert m kind t1 ok1 = (m, false) := by
        simp [send_smtp2go_alert, hl, hsup]
      rw [h1]
      simpa using bool_toNat_le_one _
    · cases ok1 with
      | true =>
        have h1 : send_smtp2go_alert m kind t1 true
            = (alertSet m kind t1, true) := by
          simp [send_smtp2go_alert, hl, hsup]
        rw [h1]
        have h2 : send_smtp2go_alert (alertSet m kind t1) kind t2 ok2
            = (alertSet m kind t1, false) := by
          simp [send_smtp2go_alert, alertLookup_set_self, ht1ne, hwin]
        rw [h2]
        simp
      | false =>
        have h1 : send_smtp2go_alert m kind t1 false = (m, false) := by
          simp [send_smtp2go_alert, hl, hsup]
        rw [h1]
        simpa using bool_toNat_le_one _

/-- Two email-alert requests of the same kind spaced further apart than
the cooldown window, starting from a fresh alert dictionary and with a
working transport, both send. -/
theorem email_spaced_both_send (kind : String) (t1 t2 : Nat)
    (hgap : ALERT_COOLDOWN < t2 - t1) :
    (send_smtp2go_alert [] kind t1 true).2 = true ∧
    (send_smtp2go_alert (send_smtp2go_alert [] kind t1 true).1 kind t2
        true).2 = true := by
  have h1 : send_smtp2go_alert [] kind t1 true = (alertSet [] kind t1, true) := by
    simp [send_smtp2go_alert, alertLookup]
  have hnc : ¬(t1 ≠ 0 ∧ t2 - t1 < ALERT_COOLDOWN) := by
    rintro ⟨-, hc⟩
    omega
  refine ⟨by rw [h1], ?_⟩
  rw [h1]
  simp [send_smtp2go_alert, alertLookup_set_self, hnc]

/-- Two motion polls with the camera enabled within the capture
cooldown window invoke `capture_image` at most once, whatever the prior
state and the other sensor draws. -/
theorem capture_cooldown_at_most_one (cd : Nat) (st : SecurityState)
    (t1 t2 : Nat) (s1 s2 c1 c2 e1 e2 : Bool) (hwin : t2 - t1 ≤ cd) :
    (get_security_data true cd st t1 true s1 c1 e1).captureAttempted.toNat
      + (get_security_data true cd
          (get_security_data true cd st t1 true s1 c1 e1).state t2 true s2 c2
          e2).captureAttempted.toNat ≤ 1 := by
  by_cases hg1 : cd < t1 - st.lastCaptureTime
  · have h1cap :
        (get_security_data true cd st t1 true s1 c1 e1).captureAttempted
          = true := by
      simp [get_security_data, hg1]
    generalize hst1 : (get_security_data true cd st t1 true s1 c1 e1).state = st1
    have h1t : st1.lastCaptureTime = t1 := by
      rw [← hst1]
      simp [get_security_data, hg1]
    have hg2 : ¬cd < t2 - st1.lastCaptureTime := by
      rw [h1t]
      omega
    have h2cap :
        (get_security_data true cd st1 t2 true s2 c2 e2).captureAttempted
          = false := by
      simp [get_security_data, hg2]
    rw [h1cap, h2cap]
    decide
  · have h1cap :
        (get_security_data true cd st t1 true s1 c1 e1).captureAttempted
          = false := by
      simp [get_security_data, hg1]
    rw [h1cap]
    simpa using bool_toNat_le_one _

/-- Two motion polls with the camera enabled spaced further apart than
the capture cooldown window both invoke `capture_image`. -/
theorem capture_spaced_both (cd : Nat) (st : SecurityState) (t1 t2 : Nat)
    (s1 s2 c1 c2 e1 e2 : Bool) (hg1 : cd < t1 - st.lastCaptureTime)
    (hg2 : cd < t2 - t1) :
    (get_security_data true cd st t1 true s1 c1 e1).captureAttempted = true ∧
    (get_security_data true cd
        (get_security_data true cd st t1 true s1 c1 e1).state t2 true s2 c2
        e2).captureAttempted = true := by
  constructor
  · simp [get_security_data, hg1]
  · generalize hst1 : (get_security_data true cd st t1 true s1 c1 e1).state = st1
    have h1t : st1.lastCaptureTime = t1 := by
      rw [← hst1]
      simp [get_security_data, hg1]
    have hg2' : cd < t2 - st1.lastCaptureTime := by
      rw [h1t]
      exact hg2
    simp [get_security_data, hg2']

/-- C8: for each alert/capture kind, two requests within the configured
cooldown window produce at most one action — at most one email for an
alert kind (the second request is suppressed by the cooldown check
rather than queued), and at most one `capture_image` invocation for the
capture kind; two requests spaced further apart than the window both
produce their action (emails assuming a working transport, captures
unconditionally). -/
theorem c8_cooldown_window (kind : String) :
    (∀ (m : List (String × Nat)) (t1 t2 : Nat) (ok1 ok2 : Bool),
      0 < t1 → t2 - t1 < ALERT_COOLDOWN →
        (send_smtp2go_alert m kind t1 ok1).2.toNat
          + (send_smtp2go_alert (send_smtp2go_alert m kind t1 ok1).1 kind t2
              ok2).2.toNat ≤ 1) ∧
    (∀ (t1 t2 : Nat), ALERT_COOLDOWN < t2 - t1 →
      (send_smtp2go_alert [] kind t1 true).2 = true ∧
      (send_smtp2go_alert (send_smtp2go_alert [] kind t1 true).1 kind t2
          true).2 = true) ∧
    (∀ (cd : Nat) (st : SecurityState) (t1 t2 : Nat) (s1 s2 c1 c2 e1 e2 : Bool),
      t2 - t1 ≤ cd →
        (get_security_data true cd st t1 true s1 c1 e1).captureAttempted.toNat
          + (get_security_data true cd
              (get_security_data true cd st t1 true s1 c1 e1).state t2 true s2
              c2 e2).captureAttempted.toNat ≤ 1) ∧
    (∀ (cd : Nat) (st : SecurityState) (t1 t2 : Nat) (s1 s2 c1 c2 e1 e2 : Bool),
      cd < t1 - st.lastCaptureTime → cd < t2 - t1 →
        (get_security_data true cd st t1 true s1 c1 e1).captureAttempted
            = true ∧
        (get_security_data true cd
            (get_security_data true cd st t1 true s1 c1 e1).state t2 true s2
            c2 e2).captureAttempted = true) :=
  ⟨fun m t1 t2 ok1 ok2 ht1 hwin =>
      email_cooldown_at_most_one m kind t1 t2 ok1 ok2 ht1 hwin,
   fun t1 t2 hgap => email_spaced_both_send kind t1 t2 hgap,
   fun cd st t1 t2 s1 s2 c1 c2 e1 e2 hwin =>
      capture_cooldown_at_most_one cd st t1 t2 s1 s2 c1 c2 e1 e2 hwin,
   fun cd st t1 t2 s1 s2 c1 c2 e1 e2 hg1 hg2 =>
      capture_spaced_both cd st t1 t2 s1 s2 c1 c2 e1 e2 hg1 hg2⟩

/-- C8 (witness): the cooldown theorem applied to the "Motion Detected"
kind at concrete times — alerts 100 s apart (inside the 300 s window)
send at most once, alerts 400 s apart both send; captures 5 s apart
(inside a 10 s window) run at most once, captures 1000 s apart both
run. -/
theorem c8_witness :
    ((send_smtp2go_alert [] "Motion Detected" 1000 true).2.toNat
      + (send_smtp2go_alert
          (send_smtp2go_alert [] "Motion Detected" 1000 true).1
          "Motion Detected" 1100 true).2.toNat ≤ 1) ∧
    ((send_smtp2go_alert [] "Motion Detected" 1000 true).2 = true ∧
     (send_smtp2go_alert (send_smtp2go_alert [] "Motion Detected" 1000
        true).1 "Motion Detected" 1400 true).2 = true) ∧
    ((get_security_data true 10 initialSecurityState 1000 true false true
        true).captureAttempted.toNat
      + (get_security_data true 10
          (get_security_data true 10 initialSecurityState 1000 true false
            true true).state 1005 true false true true).captureAttempted.toNat
        ≤ 1) ∧
    ((get_security_data true 10 initialSecurityState 1000 true false true
        true).captureAttempted = true ∧
     (get_security_data true 10
        (get_security_data true 10 initialSecurityState 1000 true false true
          true).state 2000 true false true true).captureAttempted = true) :=
  ⟨(c8_cooldown_window "Motion Detected").1 [] 1000 1100 true true
      (by decide) (by decide),
   (c8_cooldown_window "Motion Detected").2.1 1000 1400 (by decide),
   (c8_cooldown_window "Motion Detected").2.2.1 10 initialSecurityState 1000
      1005 false false true true true true (by decide),
   (c8_cooldown_window "Motion Detected").2.2.2 10 initialSecurityState 1000
      2000 false false true true true true (by decide) (by decide)⟩

end IntelliHome
